import Mathlib

/-!
# CRS Rice Bowl portal — verification of the specification against the code

A shallow embedding of the application's data model (`src/app/models.py`)
and of its admin and public request handlers (`src/app/routes/admin.py`,
`src/app/routes/api.py`).

Conventions of the embedding:
- Python `datetime` values are modelled as integers (`Int`): only their
  relative order matters to the code, and `datetime` comparison is total.
- Python `float` money amounts are modelled as exact rationals (`ℚ`);
  every concrete amount the claims mention has an exact finite decimal
  representation.
- Database tables are lists of records; query order (`order_by`) is taken
  to be the order of the stored list where a handler relies on it.
- A handler that flashes an error and redirects without committing (or
  whose transaction is rolled back) is modelled as `Except.error`: the
  database state is unchanged exactly when the result is an error.
-/

namespace RiceBowl

/-! ## Models of Python's numeric-string conversions -/

/-- Numeric value of a list of decimal digit characters. -/
def digitsVal (cs : List Char) : Nat :=
  cs.foldl (fun a c => 10 * a + (c.toNat - 48)) 0

/-- Model of Python `int(s)` on an already-stripped string: an optional
sign followed by one or more decimal digits; anything else raises
`ValueError`, modelled as `none`. -/
def pyInt? (s : String) : Option Int :=
  let (sign, rest) : Int × List Char :=
    match s.toList with
    | '-' :: t => (-1, t)
    | '+' :: t => (1, t)
    | t => (1, t)
  if rest.isEmpty then none
  else if rest.all Char.isDigit then some (sign * (digitsVal rest : Int))
  else none

/-- Model of Python `float(s)` on an already-stripped string, for the plain
decimal notation this application feeds it: an optional sign, then digits
with an optional decimal point (at least one digit overall). Exponent,
`inf` and `nan` forms never arise here and are not modelled. Failure
(`ValueError`) is `none`. -/
def pyFloat? (s : String) : Option ℚ :=
  let (sign, rest) : ℚ × List Char :=
    match s.toList with
    | '-' :: t => (-1, t)
    | '+' :: t => (1, t)
    | t => (1, t)
  let ip := rest.takeWhile (fun c => c ≠ '.')
  let rest2 := rest.dropWhile (fun c => c ≠ '.')
  let fp := match rest2 with
    | [] => []
    | _ :: t => t
  if (ip ++ fp).isEmpty then none
  else if (ip ++ fp).all Char.isDigit then
    some (sign * ((digitsVal ip : ℚ) + (digitsVal fp : ℚ) / (10 : ℚ) ^ fp.length))
  else none

/-- Decimal digits of the fraction `num / den` (with `num < den`), by
long division, the fuel bounding the number of digits produced. -/
def floatFracChars : Nat → Nat → Nat → List Char
  | 0, _, _ => []
  | fuel + 1, num, den =>
    if num = 0 then []
    else Char.ofNat (48 + num * 10 / den) :: floatFracChars fuel (num * 10 % den) den

/-- Model of Python `str(x)` on a float holding an exact finite-decimal
value (the only values this application stores): a decimal rendering with
at least one fractional digit, e.g. `0.0`, `100.0`, `25.5`, computed by
long division from the reduced numerator and denominator. -/
def floatStr (q : ℚ) : String :=
  let ipart := q.num.natAbs / q.den
  let frac := floatFracChars 17 (q.num.natAbs % q.den) q.den
  (if q < 0 then "-" else "") ++ toString ipart ++ "." ++
    (if frac.isEmpty then "0" else String.mk frac)

/-- Model of Python `str.strip()`: drop whitespace from both ends. -/
def pyStrip (s : String) : String :=
  String.mk (((s.toList.dropWhile Char.isWhitespace).reverse.dropWhile
    Char.isWhitespace).reverse)

/-- A string of one or more decimal digits, as a number. -/
def natOfDigits? (s : String) : Option Nat :=
  if s.isEmpty then none
  else if s.toList.all Char.isDigit then some (digitsVal s.toList)
  else none

/-- Order-preserving encoding of a calendar datetime as a single integer
(valid field ranges make the encoding monotone in lexicographic order). -/
def encodeDT (y mo da h mi s : Nat) : Int :=
  ((((y * 13 + mo) * 32 + da) * 24 + h) * 60 + mi) * 60 + s

/-- Model of `_parse_datetime` (`src/app/routes/admin.py`): accepts
`YYYY-MM-DDTHH:MM`, `YYYY-MM-DD HH:MM`, and the same with `:SS`; any other
shape raises `ValueError`, modelled as `none`. Field-range checks mirror
`strptime` (month-length subtleties are elided; no claim depends on them). -/
def parseDatetime? (s : String) : Option Int :=
  let parts := if s.toList.contains 'T' then s.splitOn "T" else s.splitOn " "
  match parts with
  | [d, t] =>
    match d.splitOn "-" with
    | [ys, ms, ds] =>
      match natOfDigits? ys, natOfDigits? ms, natOfDigits? ds with
      | some y, some mo, some da =>
        let hms : Option (Nat × Nat × Nat) :=
          match t.splitOn ":" with
          | [hs, mins] =>
            match natOfDigits? hs, natOfDigits? mins with
            | some h, some mi => some (h, mi, 0)
            | _, _ => none
          | [hs, mins, ss] =>
            match natOfDigits? hs, natOfDigits? mins, natOfDigits? ss with
            | some h, some mi, some sec => some (h, mi, sec)
            | _, _, _ => none
          | _ => none
        match hms with
        | some (h, mi, sec) =>
          if 1 ≤ mo && mo ≤ 12 && 1 ≤ da && da ≤ 31 && h ≤ 23 && mi ≤ 59 && sec ≤ 59 then
            some (encodeDT y mo da h mi sec)
          else none
        | none => none
      | _, _, _ => none
    | _ => none
  | _ => none

/-! ## Data model (`src/app/models.py`) -/

/-- `Quiz` row: weekly country trivia challenge. Column defaults mirror
the model's column defaults. -/
structure Quiz where
  week_number : Nat
  country_name : String
  description : Option String := none
  forms_link : Option String := none
  opens_at : Option Int := none
  closes_at : Option Int := none
  schedule_mode : String := "manual"
  manual_visible : Bool := false
  participant_count : Int := 0
  participants_text : Option String := none
  winner_1 : Option String := none
  winner_2 : Option String := none
  winner_3 : Option String := none
deriving Repr, DecidableEq

/-- `Quiz.is_visible`: visibility from the schedule mode and the current
time (`src/app/models.py` lines 70-84). -/
def Quiz.is_visible (q : Quiz) (now : Int) : Bool :=
  if q.schedule_mode == "manual" then q.manual_visible
  else if q.schedule_mode == "scheduled" then
    match q.opens_at, q.closes_at with
    | some o, some c => decide (o ≤ now) && decide (now ≤ c)
    | _, _ => false
  else false

/-- `SchoolClass` row: a class and its rice-bowl donation amount. -/
structure SchoolClass where
  id : Nat
  name : String
  rice_bowl_amount : ℚ
deriving Repr, DecidableEq

/-- `Announcement` row: homepage banner with optional time window. -/
structure Announcement where
  id : Nat
  text : String
  start_at : Option Int := none
  end_at : Option Int := none
  enabled : Bool := true
deriving Repr, DecidableEq

/-- `Announcement.is_active` (`src/app/models.py` lines 160-182). -/
def Announcement.is_active (a : Announcement) (now : Int) : Bool :=
  if !a.enabled then false
  else if a.start_at == none && a.end_at == none then true
  else if (match a.start_at with | some s => decide (now < s) | none => false) then false
  else if (match a.end_at with | some e => decide (e < now) | none => false) then false
  else true

/-- The `settings` table: key-value rows, key primary. -/
abbrev Settings := List (String × String)

/-- `Setting.get(key, default)`: value of the row with the key, else the
default. -/
def Setting.get (settings : Settings) (key default : String) : String :=
  match settings.find? (fun kv => kv.1 == key) with
  | some kv => kv.2
  | none => default

/-- `Setting.set(key, value)`: update the existing row, else insert one. -/
def Setting.set (settings : Settings) (key value : String) : Settings :=
  if settings.any (fun kv => kv.1 == key) then
    settings.map (fun kv => if kv.1 == key then (kv.1, value) else kv)
  else settings ++ [(key, value)]

/-- One database state: the four tables the claims touch. `quizzes` is
kept in `week_number` order (the order every handler queries it in). -/
structure DB where
  quizzes : List Quiz
  classes : List SchoolClass
  settings : Settings
  announcements : List Announcement
deriving Repr, DecidableEq

/-! ## Public API (`src/app/routes/api.py`) -/

/-- Whether a quiz is a scheduled one whose close time is in the past —
the condition the loop at lines 183-187 of `api.py` tests. -/
def closedScheduled (now : Int) (q : Quiz) : Bool :=
  q.schedule_mode == "scheduled" &&
    (match q.closes_at with
     | some c => decide (c < now)
     | none => false)

/-- Python `max(q.week_number for q in quizzes)` over a nonempty list. -/
def maxWeek (quizzes : List Quiz) : Nat :=
  (quizzes.map (fun q => q.week_number)).foldl max 0

/-- `_determine_current_week` (`src/app/routes/api.py` lines 162-190),
over the week-ordered quiz list the query returns. -/
def determineCurrentWeek (quizzes : List Quiz) (now : Int) : Nat :=
  if quizzes.isEmpty then 1
  else
    match quizzes.find? (fun q => q.is_visible now) with
    | some q => q.week_number
    | none =>
      match quizzes.reverse.find? (closedScheduled now) with
      | some q => min (q.week_number + 1) (maxWeek quizzes)
      | none => 1

/-- The participants list of a quiz view: lines of `participants_text`,
stripped, empties dropped; a falsy (absent or empty) text gives `[]`. -/
def parseParticipants (t : Option String) : List String :=
  match t with
  | none => []
  | some s =>
    if s.isEmpty then []
    else ((s.splitOn "\n").map pyStrip).filter (fun l => !l.isEmpty)

/-- The winners list of a quiz view: the set winner fields, in order,
skipping falsy (absent or empty) ones. -/
def parseWinners (q : Quiz) : List String :=
  (([q.winner_1, q.winner_2, q.winner_3].filterMap id).filter (fun w => !w.isEmpty))

/-- One quiz entry of the `/api/data` response. -/
structure ApiQuizView where
  week_number : Nat
  country_name : String
  description : String
  forms_link : String
  opens_at : Option Int
  closes_at : Option Int
  is_visible : Bool
  participant_count : Int
  participants : List String
  winners : List String
deriving Repr, DecidableEq

/-- One class entry of the `/api/data` response. -/
structure ApiClassView where
  id : Nat
  name : String
  rice_bowl_amount : ℚ
deriving Repr, DecidableEq

/-- One active-announcement entry of the `/api/data` response. -/
structure ApiAnnouncementView where
  id : Nat
  text : String
  enabled : Bool
deriving Repr, DecidableEq

/-- The settings document of the `/api/data` response. -/
structure ApiSettings where
  crs_donation_link : String
  online_alms_total : String
  show_grand_total : String
  theme : String
  school_logo_url : String
  enable_crs_imagery : String
deriving Repr, DecidableEq

/-- The `/api/data` response document. -/
structure ApiResponse where
  current_week : Nat
  quizzes : List ApiQuizView
  classes : List ApiClassView
  settings : ApiSettings
  announcements : List ApiAnnouncementView
  rice_bowl_total : ℚ
  grand_total : ℚ
deriving Repr, DecidableEq

/-- The quiz view built at lines 61-72 of `api.py`. -/
def quizView (now : Int) (q : Quiz) : ApiQuizView :=
  { week_number := q.week_number
    country_name := q.country_name
    description := q.description.getD ""
    forms_link := q.forms_link.getD ""
    opens_at := q.opens_at
    closes_at := q.closes_at
    is_visible := q.is_visible now
    participant_count := q.participant_count
    participants := parseParticipants q.participants_text
    winners := parseWinners q }

/-- The settings document with its documented defaults (lines 86-93). -/
def apiSettingsOf (settings : Settings) : ApiSettings :=
  { crs_donation_link := Setting.get settings "crs_donation_link" ""
    online_alms_total := Setting.get settings "online_alms_total" "0.00"
    show_grand_total := Setting.get settings "show_grand_total" "false"
    theme := Setting.get settings "theme" "lenten-purple"
    school_logo_url := Setting.get settings "school_logo_url" ""
    enable_crs_imagery := Setting.get settings "enable_crs_imagery" "true" }

/-- The `try: float(...) except: 0.0` conversion at lines 110-113. -/
def pyFloatOr0 (s : String) : ℚ :=
  (pyFloat? s).getD 0

/-- The successful body of `get_data` (lines 31-134): the full response
document assembled from the current database state. -/
def buildData (db : DB) (now : Int) : ApiResponse :=
  let settings := apiSettingsOf db.settings
  let rice_bowl_total := (db.classes.map (fun c => c.rice_bowl_amount)).sum
  { current_week := determineCurrentWeek db.quizzes now
    quizzes := db.quizzes.map (quizView now)
    classes := db.classes.map (fun c => ⟨c.id, c.name, c.rice_bowl_amount⟩)
    settings := settings
    announcements :=
      (db.announcements.filter (fun a => a.is_active now)).map
        (fun a => ⟨a.id, a.text, a.enabled⟩)
    rice_bowl_total := rice_bowl_total
    grand_total := pyFloatOr0 settings.online_alms_total + rice_bowl_total }

/-- The fixed fallback document of the `except` branch (lines 140-155). -/
def fallbackResponse : ApiResponse :=
  { current_week := 1
    quizzes := []
    classes := []
    settings :=
      { crs_donation_link := ""
        online_alms_total := "0.00"
        show_grand_total := "false"
        theme := "lenten-purple"
        school_logo_url := ""
        enable_crs_imagery := "true" }
    announcements := []
    rice_bowl_total := 0
    grand_total := 0 }

/-- `get_data` (`src/app/routes/api.py` lines 17-159): the database read
either yields a state or fails; on failure the handler answers the fixed
fallback document with HTTP status 500, otherwise the assembled response
with status 200. -/
def get_data (dbRead : Except String DB) (now : Int) : ApiResponse × Nat :=
  match dbRead with
  | .ok db => (buildData db now, 200)
  | .error _ => (fallbackResponse, 500)

/-! ## Admin handlers (`src/app/routes/admin.py`) -/

/-- The rice-bowl sum computed by `dashboard` and `totals`. -/
def riceBowlTotal (classes : List SchoolClass) : ℚ :=
  (classes.map (fun c => c.rice_bowl_amount)).sum

/-- The grand total of `dashboard` (lines 99-102) and `totals` (lines
205-215): `float(Setting.get('online_total', '0') or '0')` plus the class
sum; `none` models the uncaught `ValueError` when the stored string does
not parse. -/
def dashboardGrandTotal (db : DB) : Option ℚ :=
  let s := Setting.get db.settings "online_total" "0"
  (pyFloat? (if s.isEmpty then "0" else s)).map (fun v => v + riceBowlTotal db.classes)

/-- Python `x or None` on a string: an empty string becomes `None`. -/
def strOrNone (s : String) : Option String :=
  if s.isEmpty then none else some s

/-- The fields of the weekly quiz form, each `none` when absent from the
request (`request.form.get` supplies the handler's default). -/
structure QuizForm where
  country_name : Option String := none
  description : Option String := none
  forms_link : Option String := none
  schedule_mode : Option String := none
  manual_visible : Option String := none
  opens_at : Option String := none
  closes_at : Option String := none
  participant_count : Option String := none
  participants_text : Option String := none
  winner_1 : Option String := none
  winner_2 : Option String := none
  winner_3 : Option String := none
deriving Repr, DecidableEq

/-- `update_quiz` (lines 137-191) on the quiz row of the requested week:
an error is a flashed validation message with the transaction rolled back
(nothing stored); success stores the updated row. -/
def update_quiz (form : QuizForm) (quiz : Quiz) : Except String Quiz :=
  let country :=
    let c := pyStrip (form.country_name.getD "")
    if c.isEmpty then "Week " ++ toString quiz.week_number else c
  let opens_str := pyStrip (form.opens_at.getD "")
  let closes_str := pyStrip (form.closes_at.getD "")
  match (if opens_str.isEmpty then some none else (parseDatetime? opens_str).map some),
        (if closes_str.isEmpty then some none else (parseDatetime? closes_str).map some) with
  | some opens, some closes =>
    if (match opens, closes with
        | some o, some c => decide (o ≥ c)
        | _, _ => false) then
      .error "Opening date must be before closing date."
    else
      let pc_str := pyStrip (form.participant_count.getD "0")
      match (if pc_str.isEmpty then some 0 else pyInt? pc_str) with
      | none => .error "Invalid data"
      | some pc =>
        .ok { quiz with
              country_name := country
              description := strOrNone (pyStrip (form.description.getD ""))
              forms_link := strOrNone (pyStrip (form.forms_link.getD ""))
              schedule_mode := form.schedule_mode.getD "manual"
              manual_visible := form.manual_visible == some "on"
              opens_at := opens
              closes_at := closes
              participant_count := pc
              participants_text := strOrNone (pyStrip (form.participants_text.getD ""))
              winner_1 := strOrNone (pyStrip (form.winner_1.getD ""))
              winner_2 := strOrNone (pyStrip (form.winner_2.getD ""))
              winner_3 := strOrNone (pyStrip (form.winner_3.getD "")) }
  | _, _ => .error "Invalid data"

/-- `update_totals` (lines 219-246): validates the online total, then
stores the CRS link and `str(online_total)` under the `online_total` key.
An error leaves the settings table untouched. -/
def update_totals (form_crs form_online : Option String) (settings : Settings) :
    Except String Settings :=
  let crs_link := pyStrip (form_crs.getD "")
  let s := pyStrip (form_online.getD "0")
  match (if s.isEmpty then some 0 else pyFloat? s) with
  | none => .error "Please enter a valid number for online total."
  | some v =>
    if v < 0 then .error "Please enter a valid number for online total."
    else
      .ok (Setting.set (Setting.set settings "crs_donation_link" crs_link)
            "online_total" (floatStr v))

/-- `update_class_total` (lines 249-280): validates the amount and stores
it on the class row with the given primary key. -/
def update_class_total (class_id : Nat) (form_amount : Option String)
    (classes : List SchoolClass) : Except String (List SchoolClass) :=
  match classes.find? (fun c => c.id == class_id) with
  | none => .error "Class not found."
  | some _ =>
    let s := pyStrip (form_amount.getD "0")
    match (if s.isEmpty then some 0 else pyFloat? s) with
    | none => .error "Please enter a valid number."
    | some v =>
      if v < 0 then .error "Amount cannot be negative."
      else
        .ok (classes.map (fun c =>
          if c.id == class_id then { c with rice_bowl_amount := v } else c))

/-- `add_class` (lines 297-335): requires a (stripped) nonempty name, no
existing class of exactly that name, and a non-negative initial amount;
the new row's id models the autoincrement primary key. -/
def add_class (form_name form_amount : Option String)
    (classes : List SchoolClass) : Except String (List SchoolClass) :=
  let name := pyStrip (form_name.getD "")
  if name.isEmpty then .error "Class name is required."
  else if classes.any (fun c => c.name == name) then
    .error ("A class named \"" ++ name ++ "\" already exists.")
  else
    let s := pyStrip (form_amount.getD "0")
    match (if s.isEmpty then some 0 else pyFloat? s) with
    | none => .error "Please enter a valid number for the initial amount."
    | some v =>
      if v < 0 then .error "Initial amount cannot be negative."
      else
        .ok (classes ++ [{ id := (classes.map (fun c => c.id)).foldl max 0 + 1
                           name := name
                           rice_bowl_amount := v }])

/-- `update_class` (lines 338-378), the full-page form variant: optional
rename (checked for duplicates against every other row) and optional
amount update; an error rolls everything back. -/
def update_class (class_id : Nat) (form_name form_amount : Option String)
    (classes : List SchoolClass) : Except String (List SchoolClass) :=
  match classes.find? (fun c => c.id == class_id) with
  | none => .error "Class not found."
  | some cls =>
    let new_name := pyStrip (form_name.getD "")
    let amount_str := pyStrip (form_amount.getD "")
    let rename := !new_name.isEmpty && new_name != cls.name
    let name1 := if rename then new_name else cls.name
    if rename &&
       (match classes.find? (fun c => c.name == new_name) with
        | some ex => ex.id != class_id
        | none => false) then
      .error ("A class named \"" ++ new_name ++ "\" already exists.")
    else if amount_str.isEmpty then
      .ok (classes.map (fun c =>
        if c.id == class_id then { c with name := name1 } else c))
    else
      match pyFloat? amount_str with
      | none => .error "Please enter a valid number for the amount."
      | some v =>
        if v < 0 then .error "Amount cannot be negative."
        else
          .ok (classes.map (fun c =>
            if c.id == class_id then { c with name := name1, rice_bowl_amount := v } else c))

/-- `edit_class` (lines 381-413), the inline JSON variant: rename only,
with the same duplicate check excluding the class's own row; `json_name`
is `none` when the request carries no JSON body. -/
def edit_class (class_id : Nat) (json_name : Option String)
    (classes : List SchoolClass) : Except String (List SchoolClass) :=
  match classes.find? (fun c => c.id == class_id) with
  | none => .error "Class not found"
  | some cls =>
    let new_name := pyStrip (json_name.getD "")
    if new_name.isEmpty then .error "Class name is required"
    else if new_name != cls.name &&
       (match classes.find? (fun c => c.name == new_name) with
        | some ex => ex.id != class_id
        | none => false) then
      .error ("A class named \"" ++ new_name ++ "\" already exists")
    else
      .ok (classes.map (fun c =>
        if c.id == class_id then { c with name := new_name } else c))

/-- The default quiz row `_ensure_quizzes_exist` creates for a missing
week (lines 714-720); unset columns take the model's column defaults. -/
def defaultQuiz (week : Nat) : Quiz :=
  { week_number := week
    country_name := "Week " ++ toString week
    schedule_mode := "manual"
    manual_visible := false }

/-- `_ensure_quizzes_exist` (lines 707-723): for each week 1..6 in turn,
add the default row unless one with that week number is already present
(pending adds are visible to the next iteration's query). -/
def ensure_quizzes_exist (quizzes : List Quiz) : List Quiz :=
  (List.range' 1 6).foldl
    (fun acc week =>
      if acc.any (fun q => q.week_number == week) then acc
      else acc ++ [defaultQuiz week])
    quizzes

/-- Number of quiz rows carrying a given week number. -/
def countWeek (qs : List Quiz) (w : Nat) : Nat :=
  (qs.filter (fun q => q.week_number == w)).length

/-- The scheduled quiz whose close time lies furthest in the past's
direction of "most recent" — i.e. the latest close time before `now` —
among the closed scheduled quizzes; `none` when there is no such quiz.
This follows the specification's words ("the most recently closed
scheduled quiz"), for comparison with `determineCurrentWeek`. -/
def mostRecentlyClosed? (quizzes : List Quiz) (now : Int) : Option Quiz :=
  match quizzes.filter (closedScheduled now) with
  | [] => none
  | c :: cs =>
    some (cs.foldl (fun best q =>
      if best.closes_at.getD 0 < q.closes_at.getD 0 then q else best) c)

/-- Current-week resolution as the specification words it: the first
currently visible week; otherwise the week after the most recently closed
scheduled quiz, capped at the maximum defined week number; otherwise
week 1. For comparison with the code's `determineCurrentWeek`. -/
def claimCurrentWeek (quizzes : List Quiz) (now : Int) : Nat :=
  match quizzes.find? (fun q => q.is_visible now) with
  | some q => q.week_number
  | none =>
    match mostRecentlyClosed? quizzes now with
    | some q => min (q.week_number + 1) (maxWeek quizzes)
    | none => 1

/-! ## Concrete states used by counterexamples and witnesses -/

/-- Classes A ($50.00) and B ($25.50) with an admin-entered online total
of $100.00 — stored, as `update_totals` stores it, under the
`online_total` key. -/
def c1DB : DB :=
  { quizzes := []
    classes := [⟨1, "A", 50⟩, ⟨2, "B", 51/2⟩]
    settings := [("online_total", "100.0")]
    announcements := [] }

/-- Week 1 closed at time 10, week 2 closed already at time 5, week 3 a
manual invisible quiz; at `now = 20` the most recently closed scheduled
quiz is week 1. -/
def c2cexQuizzes : List Quiz :=
  [{ week_number := 1, country_name := "W1", schedule_mode := "scheduled",
     closes_at := some 10 },
   { week_number := 2, country_name := "W2", schedule_mode := "scheduled",
     closes_at := some 5 },
   { week_number := 3, country_name := "W3" }]

/-- Week 1 scheduled and closed (window [0,10]), week 2 scheduled but not
yet open (window [30,40]); the current time is 20. -/
def c2exQuizzes : List Quiz :=
  [{ week_number := 1, country_name := "W1", schedule_mode := "scheduled",
     opens_at := some 0, closes_at := some 10 },
   { week_number := 2, country_name := "W2", schedule_mode := "scheduled",
     opens_at := some 30, closes_at := some 40 }]

/-- Two classes named 5A and 5B. -/
def c8Classes : List SchoolClass :=
  [⟨1, "5A", 0⟩, ⟨2, "5B", 0⟩]

/-! ## Setting-store lemmas -/

/-- Lookup on a cons cell: the head answers when its key matches. -/
theorem Setting.get_cons (ka va : String) (t : Settings) (k' d : String) :
    Setting.get ((ka, va) :: t) k' d
      = if ka == k' then va else Setting.get t k' d := by
  unfold Setting.get
  cases h : ka == k' <;> simp [List.find?, h]

/-- Updating the value stored under one key leaves lookups of a different
key unchanged. -/
theorem Setting.get_map_update (s : Settings) (k k' v d : String) (h : k' ≠ k) :
    Setting.get (s.map (fun kv => if kv.1 == k then (kv.1, v) else kv)) k' d
      = Setting.get s k' d := by
  induction s with
  | nil => rfl
  | cons a t ih =>
    rcases a with ⟨ka, va⟩
    by_cases hk : ka = k
    · have hk' : (ka == k') = false := by
        simp only [beq_eq_false_iff_ne, ne_eq, hk]
        exact fun he => h he.symm
      have hmap : (((ka, va) : String × String) :: t).map
            (fun kv => if kv.1 == k then (kv.1, v) else kv)
          = (ka, v) :: t.map (fun kv => if kv.1 == k then (kv.1, v) else kv) := by
        simp [hk]
      rw [hmap, Setting.get_cons, Setting.get_cons, hk']
      simpa using ih
    · have hmap : (((ka, va) : String × String) :: t).map
            (fun kv => if kv.1 == k then (kv.1, v) else kv)
          = (ka, va) :: t.map (fun kv => if kv.1 == k then (kv.1, v) else kv) := by
        simp [hk]
      rw [hmap, Setting.get_cons, Setting.get_cons]
      cases hka : ka == k'
      · simpa using ih
      · rfl

/-- Appending a row for one key leaves lookups of a different key
unchanged. -/
theorem Setting.get_append_single (s : Settings) (k k' v d : String) (h : k' ≠ k) :
    Setting.get (s ++ [(k, v)]) k' d = Setting.get s k' d := by
  induction s with
  | nil =>
    have hne : (k == k') = false := by
      simp only [beq_eq_false_iff_ne, ne_eq]
      exact fun he => h he.symm
    simp only [List.nil_append]
    rw [Setting.get_cons, hne]
    simp
  | cons a t ih =>
    rcases a with ⟨ka, va⟩
    simp only [List.cons_append]
    rw [Setting.get_cons, Setting.get_cons]
    cases hka : ka == k'
    · simpa using ih
    · rfl

/-- `Setting.set` under one key does not change `Setting.get` of a
different key. -/
theorem Setting.get_set_ne (s : Settings) (k k' v d : String) (h : k' ≠ k) :
    Setting.get (Setting.set s k v) k' d = Setting.get s k' d := by
  unfold Setting.set
  by_cases hs : s.any (fun kv => kv.1 == k)
  · simp only [hs, if_true]
    exact Setting.get_map_update s k k' v d h
  · simp only [hs, if_false]
    exact Setting.get_append_single s k k' v d h

/-! ## C1 — grand totals per reading path -/

/-- C1 counterexample: with classes A=$50.00, B=$25.50 and the
admin-entered online total $100.00 (stored under `online_total`, the key
`update_totals` writes), the public endpoint reports grand_total = 75.50,
not the claimed 175.50 — the admin dashboard does report 175.50. -/
theorem grand_total_key_mismatch_counterexample :
    (buildData c1DB 0).rice_bowl_total = 151/2 ∧
    (buildData c1DB 0).grand_total = 151/2 ∧
    dashboardGrandTotal c1DB = some (351/2) ∧
    (151 : ℚ)/2 ≠ 351/2 := by
  refine ⟨?_, ?_, ?_, by norm_num⟩ <;>
    simp +decide [buildData, c1DB, dashboardGrandTotal, riceBowlTotal, apiSettingsOf,
      Setting.get, pyFloatOr0, pyFloat?, digitsVal, determineCurrentWeek,
      List.find?] <;>
    norm_num

/-- C1 (amended): each reading path recomputes its totals from the
current rows on every read, but the two paths read different setting
keys: the admin dashboard/totals pages add the value stored under
`online_total` (the key the totals form writes), while the public
endpoint adds the value stored under the separate `online_alms_total` key
(0 when absent or unparseable) — so an admin-entered online total is not
reflected in the public endpoint's grand_total, which is unchanged by any
write to `online_total`. -/
theorem grand_total_per_reading_path (db : DB) (now : Int) (v : String) :
    (buildData db now).rice_bowl_total = riceBowlTotal db.classes ∧
    (buildData db now).grand_total =
      pyFloatOr0 (Setting.get db.settings "online_alms_total" "0.00")
        + riceBowlTotal db.classes ∧
    dashboardGrandTotal db =
      (pyFloat? (if (Setting.get db.settings "online_total" "0").isEmpty then "0"
                 else Setting.get db.settings "online_total" "0")).map
        (fun x => x + riceBowlTotal db.classes) ∧
    (buildData { db with settings := Setting.set db.settings "online_total" v } now).grand_total
      = (buildData db now).grand_total := by
  refine ⟨rfl, rfl, rfl, ?_⟩
  show pyFloatOr0 (Setting.get (Setting.set db.settings "online_total" v)
        "online_alms_total" "0.00") + riceBowlTotal db.classes
      = pyFloatOr0 (Setting.get db.settings "online_alms_total" "0.00")
        + riceBowlTotal db.classes
  rw [Setting.get_set_ne db.settings "online_total" "online_alms_total" v "0.00"
    (by decide)]

/-! ## C3 — quiz visibility -/

/-- C3: a quiz is visible iff it is in manual mode with the manual flag
set (timestamps irrelevant), or in scheduled mode with both timestamps
set and `opens_at ≤ now ≤ closes_at`. -/
theorem quiz_visibility_characterization (q : Quiz) (now : Int) :
    q.is_visible now = true ↔
      (q.schedule_mode = "manual" ∧ q.manual_visible = true) ∨
      (q.schedule_mode = "scheduled" ∧
        ∃ o c, q.opens_at = some o ∧ q.closes_at = some c ∧ o ≤ now ∧ now ≤ c) := by
  unfold Quiz.is_visible
  by_cases hm : q.schedule_mode = "manual"
  · simp [hm]
  · by_cases hs : q.schedule_mode = "scheduled"
    · rcases ho : q.opens_at with _ | o <;> rcases hc : q.closes_at with _ | c <;>
        simp [hm, hs, ho, hc]
    · simp [hm, hs]

/-! ## C4 — announcement activity -/

/-- C4: an announcement is active iff it is enabled and the current time
lies within its window, an unset bound being unbounded on that side; in
particular a disabled announcement is never active and an enabled one
with neither bound set is always active. -/
theorem announcement_active_characterization (a : Announcement) (now : Int) :
    a.is_active now = true ↔
      a.enabled = true ∧
      (∀ s, a.start_at = some s → s ≤ now) ∧
      (∀ e, a.end_at = some e → now ≤ e) := by
  unfold Announcement.is_active
  cases he : a.enabled
  · simp [he]
  · rcases hs : a.start_at with _ | s <;> rcases hn : a.end_at with _ | e <;>
      simp [hs, hn]

/-! ## C9 — public endpoint failure fallback -/

/-- C9: when the database read inside the public aggregation endpoint
fails, the handler answers the fixed fallback document with status 500:
empty quiz/class/announcement collections, zero totals, week 1, default
settings — exactly the document a normal read of an empty database would
produce. -/
theorem api_failure_fallback (e : String) (now : Int) :
    get_data (Except.error e) now = (fallbackResponse, 500) ∧
    fallbackResponse.quizzes = [] ∧
    fallbackResponse.classes = [] ∧
    fallbackResponse.announcements = [] ∧
    fallbackResponse.rice_bowl_total = 0 ∧
    fallbackResponse.grand_total = 0 ∧
    fallbackResponse.current_week = 1 ∧
    fallbackResponse.settings = apiSettingsOf [] ∧
    fallbackResponse = buildData ⟨[], [], [], []⟩ now :=
  ⟨rfl, rfl, rfl, rfl, rfl, rfl, rfl, by decide, by
    simp +decide [fallbackResponse, buildData, determineCurrentWeek, apiSettingsOf,
      Setting.get, pyFloatOr0, pyFloat?, digitsVal]⟩

/-! ## C10 — unrecognized schedule modes -/

/-- C10: a quiz whose schedule mode is neither `manual` nor `scheduled`
is never visible, whatever its flag, timestamps, or the time. -/
theorem unrecognized_mode_invisible (q : Quiz) (now : Int)
    (h1 : q.schedule_mode ≠ "manual") (h2 : q.schedule_mode ≠ "scheduled") :
    q.is_visible now = false := by
  unfold Quiz.is_visible
  simp [h1, h2]

/-- C10 witness: a quiz in mode "always" with the manual flag set and a
window containing the current time is still invisible. -/
theorem unrecognized_mode_invisible_witness :
    Quiz.is_visible
      { week_number := 1, country_name := "Peru", schedule_mode := "always",
        manual_visible := true, opens_at := some 0, closes_at := some 10 } 5 = false :=
  unrecognized_mode_invisible _ 5 (by decide) (by decide)

/-! ## C2 — current-week resolution -/

/-- On a list pairwise ordered by a reflexive relation, `find?` returns
an element related to every other element satisfying the predicate. -/
theorem find?_first_rel {α : Type} {R : α → α → Prop} (hrefl : ∀ a, R a a)
    {p : α → Bool} :
    ∀ {l : List α}, l.Pairwise R → ∀ {a : α}, l.find? p = some a →
      ∀ b ∈ l, p b = true → R a b := by
  intro l
  induction l with
  | nil => intro _ a ha; cases ha
  | cons x t ih =>
    intro hp a hf b hb hpb
    rcases List.pairwise_cons.mp hp with ⟨hx, ht⟩
    by_cases hpx : p x = true
    · rw [List.find?_cons_of_pos t hpx] at hf
      cases hf
      rcases List.mem_cons.mp hb with hbx | hbt
      · rw [hbx]
        exact hrefl _
      · exact hx b hbt
    · rw [List.find?_cons_of_neg t hpx] at hf
      rcases List.mem_cons.mp hb with hbx | hbt
      · exact absurd (hbx ▸ hpb) hpx
      · exact ih ht hf b hbt hpb

/-- C2 counterexample: with week 1 (scheduled, closed at time 10), week 2
(scheduled, closed already at time 5) and week 3 (manual, invisible), at
time 20 the code returns week 3 — the week after the highest-numbered
closed quiz — while the claim's "week after the most recently closed
scheduled quiz" (week 1, which closed last) is week 2. -/
theorem current_week_most_recent_counterexample :
    determineCurrentWeek c2cexQuizzes 20 = 3 ∧
    claimCurrentWeek c2cexQuizzes 20 = 2 ∧
    (3 : Nat) ≠ 2 := by
  refine ⟨by decide, by decide, by decide⟩

/-- C2 (amended): over the week-ordered quiz list, the code returns the
week of the first (least-week) currently visible quiz; if none is
visible, the week after the highest-numbered scheduled quiz whose close
time is past (not necessarily the one that closed most recently), capped
at the maximum defined week number; otherwise week 1. -/
theorem current_week_resolution (quizzes : List Quiz) (now : Int)
    (hs : quizzes.Pairwise (fun a b => a.week_number ≤ b.week_number)) :
    (∀ q ∈ quizzes, q.is_visible now = true →
       ∃ q₀, q₀ ∈ quizzes ∧ q₀.is_visible now = true ∧
         determineCurrentWeek quizzes now = q₀.week_number ∧
         ∀ r ∈ quizzes, r.is_visible now = true → q₀.week_number ≤ r.week_number) ∧
    ((∀ q ∈ quizzes, q.is_visible now = false) →
       ∀ q ∈ quizzes, closedScheduled now q = true →
         ∃ q₀, q₀ ∈ quizzes ∧ closedScheduled now q₀ = true ∧
           (∀ r ∈ quizzes, closedScheduled now r = true →
              r.week_number ≤ q₀.week_number) ∧
           determineCurrentWeek quizzes now
             = min (q₀.week_number + 1) (maxWeek quizzes)) ∧
    ((∀ q ∈ quizzes, q.is_visible now = false) →
       (∀ q ∈ quizzes, closedScheduled now q = false) →
       determineCurrentWeek quizzes now = 1) := by
  refine ⟨?_, ?_, ?_⟩
  · intro q hq hv
    have hne : quizzes.isEmpty = false := by
      cases quizzes with
      | nil => cases hq
      | cons a t => rfl
    cases hf : quizzes.find? (fun q => q.is_visible now) with
    | none =>
      exact absurd hv (by simpa using List.find?_eq_none.mp hf q hq)
    | some q₀ =>
      refine ⟨q₀, List.mem_of_find?_eq_some hf,
        by simpa using List.find?_some hf, ?_, ?_⟩
      · unfold determineCurrentWeek
        rw [hne]
        simp only [Bool.false_eq_true, if_false, hf]
      · exact fun r hr hvr =>
          find?_first_rel (R := fun a b => a.week_number ≤ b.week_number)
            (fun a => le_refl a.week_number) hs hf r hr hvr
  · intro hnv q hq hc
    have hne : quizzes.isEmpty = false := by
      cases quizzes with
      | nil => cases hq
      | cons a t => rfl
    have hf : quizzes.find? (fun q => q.is_visible now) = none :=
      List.find?_eq_none.mpr (fun x hx => by simp [hnv x hx])
    cases hr : quizzes.reverse.find? (closedScheduled now) with
    | none =>
      exact absurd hc
        (by simpa using List.find?_eq_none.mp hr q (List.mem_reverse.mpr hq))
    | some q₀ =>
      have hmem : q₀ ∈ quizzes :=
        List.mem_reverse.mp (List.mem_of_find?_eq_some hr)
      have hrev : quizzes.reverse.Pairwise
          (fun a b => b.week_number ≤ a.week_number) :=
        List.pairwise_reverse.mpr hs
      refine ⟨q₀, hmem, List.find?_some hr, ?_, ?_⟩
      · intro r hrm hcr
        exact find?_first_rel (R := fun a b => b.week_number ≤ a.week_number)
          (fun a => le_refl a.week_number) hrev hr r
          (List.mem_reverse.mpr hrm) hcr
      · unfold determineCurrentWeek
        rw [hne]
        simp only [Bool.false_eq_true, if_false, hf, hr]
  · intro hnv hnc
    cases hemp : quizzes.isEmpty with
    | true =>
      unfold determineCurrentWeek
      rw [hemp]
      rfl
    | false =>
      have hf : quizzes.find? (fun q => q.is_visible now) = none :=
        List.find?_eq_none.mpr (fun x hx => by simp [hnv x hx])
      have hr : quizzes.reverse.find? (closedScheduled now) = none :=
        List.find?_eq_none.mpr
          (fun x hx => by simp [hnc x (List.mem_reverse.mp hx)])
      unfold determineCurrentWeek
      rw [hemp]
      simp only [Bool.false_eq_true, if_false, hf, hr]

/-- C2 witness, the spec's own example: week 1 scheduled and closed,
week 2 scheduled but not yet open; the code reports the week after week 1
(the highest-numbered closed quiz), capped at the maximum defined week. -/
theorem current_week_resolution_witness :
    ∃ q₀, q₀ ∈ c2exQuizzes ∧ closedScheduled 20 q₀ = true ∧
      (∀ r ∈ c2exQuizzes, closedScheduled 20 r = true →
         r.week_number ≤ q₀.week_number) ∧
      determineCurrentWeek c2exQuizzes 20
        = min (q₀.week_number + 1) (maxWeek c2exQuizzes) :=
  (current_week_resolution c2exQuizzes 20 (by decide)).2.1 (by decide)
    { week_number := 1, country_name := "W1", schedule_mode := "scheduled",
      opens_at := some 0, closes_at := some 10 }
    (by decide) (by decide)

/-! ## C5 — ensure_weeks_exist -/

/-- A default quiz row carries its week number. -/
theorem defaultQuiz_week (w : Nat) : (defaultQuiz w).week_number = w := rfl

/-- The creation loop appends, after the existing rows, exactly one
default row for each listed week that is not already present. -/
theorem ensure_fold_append :
    ∀ (ws : List Nat), ws.Nodup → ∀ (qs : List Quiz),
      ws.foldl (fun acc week =>
          if acc.any (fun q => q.week_number == week) then acc
          else acc ++ [defaultQuiz week]) qs
        = qs ++ ((ws.filter
            (fun w => !qs.any (fun q => q.week_number == w))).map defaultQuiz) := by
  intro ws
  induction ws with
  | nil => intro _ qs; simp
  | cons w  t ih =>
    intro hnd qs
    rcases List.nodup_cons.mp hnd with ⟨hw, hnd2⟩
    simp only [List.foldl_cons, List.filter_cons]
    cases hany : qs.any (fun q => q.week_number == w) with
    | true =>
      rw [if_pos rfl, ih hnd2 qs]
      simp
    | false =>
      rw [if_neg (by simp), ih hnd2 (qs ++ [defaultQuiz w])]
      have hfil : t.filter
            (fun w2 => !(qs ++ [defaultQuiz w]).any (fun q => q.week_number == w2))
          = t.filter (fun w2 => !qs.any (fun q => q.week_number == w2)) := by
        apply List.filter_congr
        intro w2 hw2
        have hne : w ≠ w2 := fun h => hw (h ▸ hw2)
        have h1 : ([defaultQuiz w].any (fun q => q.week_number == w2)) = false := by
          simp [defaultQuiz_week, hne]
        rw [List.any_append, h1, Bool.or_false]
      rw [hfil]
      simp [List.append_assoc]

/-- Week-count of the created defaults: over a duplicate-free week list,
counting rows of week `w` among the created defaults is counting `w` in
the filtered week list. -/
theorem countWeek_map_default (ws : List Nat) (w : Nat) :
    countWeek (ws.map defaultQuiz) w = ws.count w := by
  unfold countWeek
  rw [List.count_eq_countP, ← List.countP_eq_length_filter, List.countP_map]
  rfl

/-- C5: after `_ensure_quizzes_exist` on a table whose week numbers are
distinct (the database's unique constraint), each week 1..6 has exactly
one row; the result is the input with the missing weeks' default rows
appended (pre-existing rows unchanged); and a second run changes
nothing. -/
theorem ensure_weeks_exist_spec (qs : List Quiz)
    (h : (qs.map (fun q => q.week_number)).Nodup) :
    (∀ w, 1 ≤ w → w ≤ 6 → countWeek (ensure_quizzes_exist qs) w = 1) ∧
    ensure_quizzes_exist qs
      = qs ++ (((List.range' 1 6).filter
          (fun w => !qs.any (fun q => q.week_number == w))).map defaultQuiz) ∧
    ensure_quizzes_exist (ensure_quizzes_exist qs) = ensure_quizzes_exist qs := by
  have hchar := ensure_fold_append (List.range' 1 6) (by decide) qs
  have hmain : (∀ w, 1 ≤ w → w ≤ 6 → countWeek (ensure_quizzes_exist qs) w = 1) := by
    intro w h1 h6
    have hsplit : countWeek (ensure_quizzes_exist qs) w
        = countWeek qs w
          + countWeek (((List.range' 1 6).filter
              (fun w2 => !qs.any (fun q => q.week_number == w2))).map defaultQuiz) w := by
      rw [show ensure_quizzes_exist qs = _ from hchar]
      unfold countWeek
      rw [List.filter_append, List.length_append]
    have hqs_count : countWeek qs w = (qs.map (fun q => q.week_number)).count w := by
      unfold countWeek
      rw [List.count_eq_countP, ← List.countP_eq_length_filter, List.countP_map]
      rfl
    have hmem_iff : qs.any (fun q => q.week_number == w) = true
        ↔ w ∈ qs.map (fun q => q.week_number) := by
      rw [List.any_eq_true]
      simp only [List.mem_map, beq_iff_eq]
    have hwr : w ∈ List.range' 1 6 := List.mem_range'_1.mpr (by omega)
    rw [hsplit, countWeek_map_default]
    cases hany : qs.any (fun q => q.week_number == w) with
    | true =>
      have hmem := hmem_iff.mp hany
      have h1' : countWeek qs w = 1 := by
        rw [hqs_count]
        exact List.count_eq_one_of_mem h hmem
      have h0 : ((List.range' 1 6).filter
          (fun w2 => !qs.any (fun q => q.week_number == w2))).count w = 0 := by
        apply List.count_eq_zero_of_not_mem
        intro hmemf
        have := List.of_mem_filter hmemf
        rw [hany] at this
        simp at this
      omega
    | false =>
      have hnmem : w ∉ qs.map (fun q => q.week_number) := fun hm => by
        rw [hmem_iff.mpr hm] at hany
        cases hany
      have h0 : countWeek qs w = 0 := by
        rw [hqs_count]
        exact List.count_eq_zero_of_not_mem hnmem
      have h1' : ((List.range' 1 6).filter
          (fun w2 => !qs.any (fun q => q.week_number == w2))).count w = 1 := by
        apply List.count_eq_one_of_mem
        · exact List.Nodup.filter _ (by decide)
        · exact List.mem_filter.mpr ⟨hwr, by simp [hany]⟩
      omega
  refine ⟨hmain, hchar, ?_⟩
  have hchar2 := ensure_fold_append (List.range' 1 6) (by decide) (ensure_quizzes_exist qs)
  have hnil : (List.range' 1 6).filter
      (fun w => !(ensure_quizzes_exist qs).any (fun q => q.week_number == w)) = [] := by
    rw [List.filter_eq_nil_iff]
    intro w hwmem
    have hw16 : 1 ≤ w ∧ w < 7 := List.mem_range'_1.mp hwmem
    have hcount := hmain w hw16.1 (by omega)
    have hpos : 0 < ((ensure_quizzes_exist qs).filter
        (fun q => q.week_number == w)).length := by
      unfold countWeek at hcount
      omega
    rcases List.exists_mem_of_length_pos hpos with ⟨q, hqf⟩
    rcases List.mem_filter.mp hqf with ⟨hqm, hqw⟩
    have : (ensure_quizzes_exist qs).any (fun q => q.week_number == w) = true :=
      List.any_eq_true.mpr ⟨q, hqm, hqw⟩
    simp [this]
  show ensure_quizzes_exist (ensure_quizzes_exist qs) = ensure_quizzes_exist qs
  calc ensure_quizzes_exist (ensure_quizzes_exist qs)
      = ensure_quizzes_exist qs ++ _ := hchar2
    _ = ensure_quizzes_exist qs := by rw [hnil]; simp

/-- C5 witness: starting from a table holding only a week-3 row, the run
yields exactly one week-3 row. -/
theorem ensure_weeks_exist_spec_witness :
    countWeek (ensure_quizzes_exist [defaultQuiz 3]) 3 = 1 :=
  (ensure_weeks_exist_spec [defaultQuiz 3] (by decide)).1 3 (by decide) (by decide)

/-! ## C6 — participant-count parsing -/

/-- C6 counterexample: a non-integer participant count ("abc") makes the
update fail with a validation error — nothing (in particular not 0) is
stored — and a negative integer ("-3") is accepted and stored as -3. -/
theorem participant_count_counterexample :
    (update_quiz { participant_count := some "abc" } (defaultQuiz 1)).toOption = none ∧
    ((update_quiz { participant_count := some "-3" } (defaultQuiz 1)).toOption.map
      (fun q => q.participant_count)) = some (-3) := by
  refine ⟨by decide, by decide⟩

/-- C6 (amended): with the schedule fields blank, the weekly update
stores 0 when the participant-count field is blank, stores any string the
Python `int()` parser accepts — including negative integers — as the
parsed value, and fails with a caught validation error (no write) on any
other string. -/
theorem participant_count_parsing (form : QuizForm) (quiz : Quiz)
    (ho : pyStrip (form.opens_at.getD "") = "") (hc : pyStrip (form.closes_at.getD "") = "") :
    (pyStrip (form.participant_count.getD "0") = "" →
       ∃ q2, update_quiz form quiz = .ok q2 ∧ q2.participant_count = 0) ∧
    (∀ n, pyInt? (pyStrip (form.participant_count.getD "0")) = some n →
       ∃ q2, update_quiz form quiz = .ok q2 ∧ q2.participant_count = n) ∧
    (pyStrip (form.participant_count.getD "0") ≠ "" →
       pyInt? (pyStrip (form.participant_count.getD "0")) = none →
       update_quiz form quiz = .error "Invalid data") := by
  unfold update_quiz
  simp only [ho, hc, show (("" : String).isEmpty) = true from rfl, if_true]
  refine ⟨?_, ?_, ?_⟩
  · intro hempty
    rw [hempty]
    exact ⟨_, rfl, rfl⟩
  · intro n hn
    by_cases hemp : pyStrip (form.participant_count.getD "0") = ""
    · rw [hemp, show pyInt? "" = none from rfl] at hn
      cases hn
    · have hbool : (pyStrip (form.participant_count.getD "0")).isEmpty = false := by
        cases hb : (pyStrip (form.participant_count.getD "0")).isEmpty
        · rfl
        · exact absurd ((String.isEmpty_iff _).mp hb) hemp
      rw [hn, hbool]
      simp only [Bool.false_eq_true, if_false]
      exact ⟨_, rfl, rfl⟩
  · intro hne hn
    have hbool : (pyStrip (form.participant_count.getD "0")).isEmpty = false := by
      cases hb : (pyStrip (form.participant_count.getD "0")).isEmpty
      · rfl
      · exact absurd ((String.isEmpty_iff _).mp hb) hne
    rw [hn, hbool]
    simp only [Bool.false_eq_true, if_false]

/-- C6 witness: a participant count of "5" with blank schedule fields is
stored as 5. -/
theorem participant_count_parsing_witness :
    ∃ q2, update_quiz { participant_count := some "5" } (defaultQuiz 2) = .ok q2 ∧
      q2.participant_count = 5 :=
  (participant_count_parsing { participant_count := some "5" } (defaultQuiz 2)
    rfl rfl).2.1 5 (by decide)

/-! ## C7 — totals validation -/

/-- C7 counterexample: a blank online-total input does not parse as a
number, yet the update succeeds — overwriting the previously stored
$50.00 with 0.0 — rather than being rejected. -/
theorem totals_blank_input_counterexample :
    pyFloat? "" = none ∧
    (update_totals none (some "") [("online_total", "50.0")]).toOption
      = some [("online_total", "0.0"), ("crs_donation_link", "")] := by
  refine ⟨rfl, by decide⟩

/-- C7 (amended): setting the online total or a class amount rejects
negative and non-numeric **non-blank** input with a user-facing error and
no state change, but a blank input is accepted and stored as 0; so the
update succeeds iff the input is blank or parses as a non-negative
number (and, for a class, the class exists). On success the parsed value
is stored — `str(value)` under `online_total`, or on the class row. -/
theorem totals_validation (form_crs form_online form_amount : Option String)
    (settings : Settings) (class_id : Nat) (classes : List SchoolClass) :
    ((update_totals form_crs form_online settings).isOk = true ↔
       (pyStrip (form_online.getD "0") = "" ∨
        ∃ v, pyFloat? (pyStrip (form_online.getD "0")) = some v ∧ 0 ≤ v)) ∧
    (∀ v, pyFloat? (pyStrip (form_online.getD "0")) = some v → v < 0 →
       update_totals form_crs form_online settings
         = .error "Please enter a valid number for online total.") ∧
    (∀ v, pyFloat? (pyStrip (form_online.getD "0")) = some v → 0 ≤ v →
       update_totals form_crs form_online settings
         = .ok (Setting.set (Setting.set settings "crs_donation_link"
             (pyStrip (form_crs.getD ""))) "online_total" (floatStr v))) ∧
    ((update_class_total class_id form_amount classes).isOk = true ↔
       ((classes.any (fun c => c.id == class_id)) = true ∧
        (pyStrip (form_amount.getD "0") = "" ∨
         ∃ v, pyFloat? (pyStrip (form_amount.getD "0")) = some v ∧ 0 ≤ v))) ∧
    (∀ v cls, classes.find? (fun c => c.id == class_id) = some cls →
       pyFloat? (pyStrip (form_amount.getD "0")) = some v → v < 0 →
       update_class_total class_id form_amount classes
         = .error "Amount cannot be negative.") ∧
    (∀ v cls, classes.find? (fun c => c.id == class_id) = some cls →
       pyFloat? (pyStrip (form_amount.getD "0")) = some v → 0 ≤ v →
       update_class_total class_id form_amount classes
         = .ok (classes.map (fun c =>
             if c.id == class_id then { c with rice_bowl_amount := v } else c))) := by
  have hblank : ∀ s : String, s = "" → pyFloat? s = none := by
    intro s hs
    rw [hs]
    rfl
  have hbool : ∀ s : String, s ≠ "" → s.isEmpty = false := by
    intro s hs
    cases hb : s.isEmpty
    · rfl
    · exact absurd ((String.isEmpty_iff _).mp hb) hs
  refine ⟨?_, ?_, ?_, ?_, ?_, ?_⟩
  · unfold update_totals
    by_cases hemp : pyStrip (form_online.getD "0") = ""
    · rw [hemp]
      simp only [hemp, true_or, iff_true]
      rfl
    · simp only [hbool _ hemp, Bool.false_eq_true, if_false]
      cases hp : pyFloat? (pyStrip (form_online.getD "0")) with
      | none => simp [hemp, hp, Except.isOk, Except.toBool]
      | some v =>
        by_cases hv : v < 0
        · simp only [if_pos hv, Except.isOk, Except.toBool]
          constructor
          · intro h
            cases h
          · rintro (h | ⟨v2, hv2, hge⟩)
            · exact absurd h hemp
            · cases hv2
              exact absurd hge (not_le.mpr hv)
        · simp only [if_neg hv, Except.isOk, Except.toBool]
          constructor
          · intro _
            exact Or.inr ⟨v, rfl, le_of_not_lt hv⟩
          · intro _
            trivial
  · intro v hv hvneg
    have hne : pyStrip (form_online.getD "0") ≠ "" := by
      intro hs
      rw [hblank _ hs] at hv
      cases hv
    unfold update_totals
    simp [hbool _ hne, hv, hvneg]
  · intro v hv hvpos
    have hne : pyStrip (form_online.getD "0") ≠ "" := by
      intro hs
      rw [hblank _ hs] at hv
      cases hv
    unfold update_totals
    simp [hbool _ hne, hv, not_lt.mpr hvpos]
  · unfold update_class_total
    cases hf : classes.find? (fun c => c.id == class_id) with
    | none =>
      have hany : (classes.any (fun c => c.id == class_id)) = false := by
        rw [List.any_eq_false]
        intro c hc
        simpa using List.find?_eq_none.mp hf c hc
      simp [hany, Except.isOk, Except.toBool]
    | some cls =>
      have hany : (classes.any (fun c => c.id == class_id)) = true :=
        List.any_eq_true.mpr ⟨cls, List.mem_of_find?_eq_some hf,
          List.find?_some (p := fun c : SchoolClass => c.id == class_id) hf⟩
      by_cases hemp : pyStrip (form_amount.getD "0") = ""
      · rw [hemp]
        simp only [hany, hemp, true_or, and_true, true_and, iff_true]
        rfl
      · simp only [hbool _ hemp, Bool.false_eq_true, if_false]
        cases hp : pyFloat? (pyStrip (form_amount.getD "0")) with
        | none => simp [hany, hemp, hp, Except.isOk, Except.toBool]
        | some v =>
          by_cases hv : v < 0
          · simp only [if_pos hv, Except.isOk, Except.toBool, hany, true_and]
            constructor
            · intro h
              cases h
            · rintro (h | ⟨v2, hv2, hge⟩)
              · exact absurd h hemp
              · cases hv2
                exact absurd hge (not_le.mpr hv)
          · simp only [if_neg hv, Except.isOk, Except.toBool, hany, true_and]
            constructor
            · intro _
              exact Or.inr ⟨v, rfl, le_of_not_lt hv⟩
            · intro _
              trivial
  · intro v cls hf hv hvneg
    have hne : pyStrip (form_amount.getD "0") ≠ "" := by
      intro hs
      rw [hblank _ hs] at hv
      cases hv
    unfold update_class_total
    rw [hf]
    simp [hbool _ hne, hv, hvneg]
  · intro v cls hf hv hvpos
    have hne : pyStrip (form_amount.getD "0") ≠ "" := by
      intro hs
      rw [hblank _ hs] at hv
      cases hv
    unfold update_class_total
    rw [hf]
    simp [hbool _ hne, hv, not_lt.mpr hvpos]

/-! ## C8 — class-name uniqueness -/

/-- A nonempty string is not `isEmpty`. -/
theorem isEmpty_false_of_ne (s : String) (hs : s ≠ "") : s.isEmpty = false := by
  cases hb : s.isEmpty
  · rfl
  · exact absurd ((String.isEmpty_iff _).mp hb) hs

/-- With pairwise-distinct ids, the row `find?` locates by id is the only
row with that id. -/
theorem find_id_unique (classes : List SchoolClass)
    (hid : classes.Pairwise (fun a b => a.id ≠ b.id)) (cid : Nat)
    (cls : SchoolClass)
    (hf : classes.find? (fun c => c.id == cid) = some cls) :
    ∀ c ∈ classes, c.id = cid → c = cls := by
  intro c hc hcid
  have hclsmem : cls ∈ classes := List.mem_of_find?_eq_some hf
  have hclsid : cls.id = cid := by
    simpa using List.find?_some (p := fun c : SchoolClass => c.id == cid) hf
  by_cases hceq : c = cls
  · exact hceq
  · have hsym : Symmetric (fun a b : SchoolClass => a.id ≠ b.id) :=
      fun _ _ hab he => hab he.symm
    exact absurd (hcid.trans hclsid.symm) (hid.forall hsym hc hclsmem hceq)

/-- Mapping an id-guarded update that fixes the located row is the
identity on a table with pairwise-distinct ids. -/
theorem map_id_guard_self (classes : List SchoolClass)
    (hid : classes.Pairwise (fun a b => a.id ≠ b.id)) (cid : Nat)
    (cls : SchoolClass)
    (hf : classes.find? (fun c => c.id == cid) = some cls)
    (f : SchoolClass → SchoolClass) (hcls : f cls = cls) :
    classes.map (fun c => if c.id == cid then f c else c) = classes := by
  have hpt : ∀ c ∈ classes, (if c.id == cid then f c else c) = c := by
    intro c hc
    by_cases h : (c.id == cid) = true
    · have hc2 : c = cls :=
        find_id_unique classes hid cid cls hf c hc (by simpa using h)
      rw [if_pos h, hc2, hcls]
    · rw [if_neg h]
  calc classes.map (fun c => if c.id == cid then f c else c)
      = classes.map id := List.map_congr_left hpt
    _ = classes := List.map_id classes

/-- The duplicate-check guard both rename paths evaluate, as a
proposition: some other row (a different id) already carries the name. -/
theorem rename_guard_iff (classes : List SchoolClass)
    (hid : classes.Pairwise (fun a b => a.id ≠ b.id)) (cid : Nat)
    (cls : SchoolClass)
    (hf : classes.find? (fun c => c.id == cid) = some cls)
    (nm : String) (hncls : nm ≠ cls.name) :
    ((match classes.find? (fun c => c.name == nm) with
      | some ex => ex.id != cid
      | none => false) = true)
      ↔ ∃ c ∈ classes, c.name = nm ∧ c.id ≠ cid := by
  cases hfn : classes.find? (fun c => c.name == nm) with
  | none =>
    simp only [Bool.false_eq_true, false_iff]
    rintro ⟨c, hc, hcn, _⟩
    have := List.find?_eq_none.mp hfn c hc
    simp [hcn] at this
  | some ex =>
    have hexm : ex ∈ classes := List.mem_of_find?_eq_some hfn
    have hexn : ex.name = nm := by
      simpa using List.find?_some (p := fun c : SchoolClass => c.name == nm) hfn
    constructor
    · intro h
      exact ⟨ex, hexm, hexn, by simpa using h⟩
    · rintro ⟨c, hc, hcn, hci⟩
      by_cases hexi : ex.id = cid
      · have : ex = cls := find_id_unique classes hid cid cls hf ex hexm hexi
        exact absurd (this ▸ hexn) (fun he => hncls he.symm)
      · simpa using hexi

/-- C8: adding a class under a name an existing class already carries
(exactly, case-sensitively) is rejected with no state change; renaming a
class to its own current name is a no-op success on both rename paths;
and the two rename paths (full-page form and inline variant) accept or
reject a rename identically, rejecting exactly when a different row
already carries the new name. -/
theorem class_name_uniqueness (classes : List SchoolClass)
    (hid : classes.Pairwise (fun a b => a.id ≠ b.id)) :
    (∀ form_name form_amount,
       (∃ c ∈ classes, c.name = pyStrip (form_name.getD "")) →
       (add_class form_name form_amount classes).isOk = false) ∧
    (∀ class_id cls, classes.find? (fun c => c.id == class_id) = some cls →
       pyStrip cls.name = cls.name → cls.name ≠ "" →
       update_class class_id (some cls.name) none classes = .ok classes ∧
       edit_class class_id (some cls.name) classes = .ok classes) ∧
    (∀ class_id cls nm, classes.find? (fun c => c.id == class_id) = some cls →
       pyStrip nm = nm → nm ≠ "" →
       ((update_class class_id (some nm) none classes).isOk
          = (edit_class class_id (some nm) classes).isOk ∧
        ((update_class class_id (some nm) none classes).isOk = false ↔
           nm ≠ cls.name ∧ ∃ c ∈ classes, c.name = nm ∧ c.id ≠ class_id))) := by
  refine ⟨?_, ?_, ?_⟩
  · rintro fn fa ⟨c, hc, hcn⟩
    unfold add_class
    by_cases hemp : pyStrip (fn.getD "") = ""
    · rw [hemp]
      rfl
    · have hany : classes.any (fun c2 => c2.name == pyStrip (fn.getD "")) = true :=
        List.any_eq_true.mpr ⟨c, hc, by simpa using hcn⟩
      simp [isEmpty_false_of_ne _ hemp, hany, Except.isOk, Except.toBool]
  · intro class_id cls hf hstrip hne
    constructor
    · unfold update_class
      rw [hf]
      simp only [Option.getD, hstrip, bne_self_eq_false, Bool.and_false,
        Bool.false_eq_true, if_false, Bool.false_and]
      rw [show pyStrip "" = "" from rfl]
      simp only [String.isEmpty_iff, if_pos rfl]
      rw [map_id_guard_self classes hid class_id cls hf _ rfl]
      exact if_pos trivial
    · unfold edit_class
      rw [hf]
      simp only [Option.getD, hstrip, bne_self_eq_false, Bool.false_and,
        Bool.false_eq_true, if_false]
      rw [if_neg (by simp [isEmpty_false_of_ne _ hne])]
      rw [map_id_guard_self classes hid class_id cls hf _ rfl]
  · intro class_id cls nm hf hstrip hne
    unfold update_class edit_class
    rw [hf]
    simp only [Option.getD, hstrip]
    rw [show pyStrip "" = "" from rfl]
    have hie : nm.isEmpty = false := isEmpty_false_of_ne _ hne
    simp only [hie, Bool.not_false, Bool.true_and, Bool.false_eq_true, if_false,
      show (("" : String).isEmpty) = true from rfl, eq_self_iff_true, if_true]
    by_cases hsame : nm = cls.name
    · have hbne : (nm != cls.name) = false := by simp [hsame]
      simp only [hbne, Bool.false_and, Bool.false_eq_true, if_false]
      constructor
      · rfl
      · simp only [Except.isOk, Except.toBool]
        constructor
        · intro h
          cases h
        · rintro ⟨hncls, -⟩
          exact absurd hsame hncls
    · have hbne : (nm != cls.name) = true := by simp [hsame]
      simp only [hbne, Bool.true_and]
      cases hguard : (match classes.find? (fun c => c.name == nm) with
        | some ex => ex.id != class_id
        | none => false) with
      | true =>
        simp only [hguard, if_true]
        constructor
        · rfl
        · simp only [Except.isOk, Except.toBool, true_iff]
          exact ⟨hsame, (rename_guard_iff classes hid class_id cls hf nm hsame).mp hguard⟩
      | false =>
        simp only [hguard, Bool.false_eq_true, if_false]
        constructor
        · rfl
        · simp only [Except.isOk, Except.toBool, Bool.true_eq_false, false_iff]
          rintro ⟨hncls, hex⟩
          have := (rename_guard_iff classes hid class_id cls hf nm hsame).mpr hex
          rw [hguard] at this
          cases this

/-- C8 witness: with classes 5A and 5B, adding another "5A" is rejected,
and renaming class 1 to its own name "5A" succeeds without change. -/
theorem class_name_uniqueness_witness :
    (add_class (some "5A") none c8Classes).isOk = false ∧
    update_class 1 (some "5A") none c8Classes = .ok c8Classes := by
  have h := class_name_uniqueness c8Classes (by decide)
  exact ⟨h.1 (some "5A") none ⟨⟨1, "5A", 0⟩, by decide, by decide⟩,
    (h.2.1 1 ⟨1, "5A", 0⟩ (by decide) (by decide) (by decide)).1⟩

end RiceBowl
